import Mathlib

/-!
Verification of the staged trading pipeline of the Solana HFT bot.

The Rust modules under src/src/modules are shallowly embedded: pure
functions become Lean functions over exact rationals (f64 is modelled by
the rational numbers, string formatting by ToString), channel-based
stages become functions from their inputs (including the outcomes of
external calls, passed as explicit arguments) to the messages they emit.
HashMap tables keyed by strings or strategy tags are modelled as
association lists in insertion order, which is the iteration order the
code relies on.
-/

namespace OvermindSpec

/-- Strategy tags, from modules/strategy.rs together with the AIDecision
variant referenced by modules/risk.rs and modules/ai_connector.rs. -/
inductive StrategyType where
  | TokenSniping
  | Arbitrage
  | MomentumTrading
  | SoulMeteorSniping
  | MeteoraDAMM
  | DeveloperTracking
  | AxiomMemeCoin
  | AIDecision
deriving DecidableEq, Repr

/-- Trade side, from modules/strategy.rs. -/
inductive TradeAction where
  | Buy
  | Sell
  | Hold
deriving DecidableEq, Repr

/-- A trading signal (intent), from modules/strategy.rs; the chrono
timestamp is modelled as a natural number. -/
structure TradingSignal where
  signal_id : String
  symbol : String
  action : TradeAction
  quantity : ℚ
  target_price : ℚ
  confidence : ℚ
  timestamp : Nat
  strategy_type : StrategyType
deriving DecidableEq, Repr

/-- Risk-gate parameters, from modules/risk.rs. -/
structure RiskParameters where
  max_position_size : ℚ
  max_daily_loss : ℚ
  min_confidence_threshold : ℚ
deriving DecidableEq, Repr

/-- An approved signal, from modules/risk.rs. -/
structure ApprovedSignal where
  original_signal : TradingSignal
  approved_quantity : ℚ
  risk_score : ℚ
  approval_timestamp : Nat
deriving DecidableEq, Repr

/-- RiskManager::check_position_limits: clamp the requested quantity at
the configured maximum position size. -/
def check_position_limits (p : RiskParameters) (s : TradingSignal) : ℚ :=
  if s.quantity > p.max_position_size then p.max_position_size else s.quantity

/-- RiskManager::check_daily_loss_limits: the daily P&L must be strictly
above the negated maximum daily loss. -/
def check_daily_loss_limits (p : RiskParameters) (daily_pnl : ℚ) : Bool :=
  daily_pnl > -p.max_daily_loss

/-- The per-strategy additive risk constant from the match inside
RiskManager::calculate_risk_score. -/
def strategy_type_risk : StrategyType → ℚ
  | .TokenSniping => 0.3
  | .Arbitrage => 0.1
  | .MomentumTrading => 0.2
  | .SoulMeteorSniping => 0.25
  | .MeteoraDAMM => 0.8
  | .DeveloperTracking => 0.7
  | .AxiomMemeCoin => 0.9
  | .AIDecision => 0.7

/-- RiskManager::calculate_risk_score: confidence term plus position
ratio term (using the signal's raw quantity) plus the strategy constant,
capped at 1. -/
def calculate_risk_score (p : RiskParameters) (s : TradingSignal) : ℚ :=
  min ((1 - s.confidence) * 0.4
    + s.quantity / p.max_position_size * 0.3
    + strategy_type_risk s.strategy_type) 1

/-- RiskManager::evaluate_signal: the three gates in code order
(confidence, position size, daily loss); rejections emit nothing, an
approval carries the clamped quantity and the risk score. The clock
value used for the approval timestamp is passed in. -/
def evaluate_signal (p : RiskParameters) (daily_pnl : ℚ) (now : Nat)
    (s : TradingSignal) : Option ApprovedSignal :=
  if s.confidence < p.min_confidence_threshold then none
  else
    let approved_quantity := check_position_limits p s
    if approved_quantity ≤ 0 then none
    else if ¬ (check_daily_loss_limits p daily_pnl = true) then none
    else some
      { original_signal := s
        approved_quantity := approved_quantity
        risk_score := calculate_risk_score p s
        approval_timestamp := now }

/-- StrategyEngine::calculate_slippage from modules/strategy.rs: total
slippage model with a guard for non-positive liquidity. -/
def calculate_slippage (order_size liquidity price : ℚ) : ℚ :=
  if liquidity ≤ 0 then 1
  else
    let impact_ratio := order_size / liquidity
    let base_slippage := min impact_ratio 0.5
    let price_factor : ℚ := if price < 0.01 then 1.5 else if price < 1 then 1.2 else 1
    min (base_slippage * price_factor) 1

/-- Association-list lookup modelling HashMap::get; first binding wins. -/
def assocFind {κ α : Type} [DecidableEq κ] (k : κ) : List (κ × α) → Option α
  | [] => none
  | (k2, v) :: rest => if k2 = k then some v else assocFind k rest

/-- Wallet purposes, from modules/wallet_manager.rs. -/
inductive WalletType where
  | Primary
  | Secondary
  | HFT
  | Conservative
  | Experimental
  | Arbitrage
  | MEVProtection
  | Emergency
deriving DecidableEq, Repr

/-- Wallet operational status, from modules/wallet_manager.rs. -/
inductive WalletStatus where
  | Active
  | Inactive
  | Suspended
  | Emergency
  | Maintenance
deriving DecidableEq, Repr

/-- Per-wallet, per-strategy allocation entry. -/
structure StrategyAllocation where
  strategy_type : StrategyType
  allocation_percentage : ℚ
  max_position_size : ℚ
  enabled : Bool
deriving DecidableEq, Repr

/-- Per-wallet risk limits. -/
structure WalletRiskLimits where
  max_daily_loss : ℚ
  max_position_size : ℚ
  max_concurrent_positions : Nat
  max_exposure_percentage : ℚ
  stop_loss_threshold : ℚ
  daily_trade_limit : Nat
deriving DecidableEq, Repr

/-- A wallet descriptor, from modules/wallet_manager.rs; creation and
last-used timestamps are dropped as they play no part in selection. -/
structure WalletConfig where
  wallet_id : String
  name : String
  description : String
  private_key : String
  public_key : String
  wallet_type : WalletType
  strategy_allocation : List StrategyAllocation
  risk_limits : WalletRiskLimits
  status : WalletStatus
deriving DecidableEq, Repr

/-- Balance and performance metrics of one wallet; the token-balance map
and timestamps are dropped as selection never reads them. -/
structure WalletMetrics where
  wallet_id : String
  sol_balance : ℚ
  total_value_usd : ℚ
  daily_pnl : ℚ
  total_pnl : ℚ
  trade_count_today : Nat
  risk_utilization : ℚ
  performance_score : ℚ
deriving DecidableEq, Repr

/-- Selection criteria handed to WalletManager::select_wallet. -/
structure WalletSelectionCriteria where
  strategy_type : StrategyType
  required_balance : ℚ
  risk_tolerance : ℚ
  preferred_wallet_type : Option WalletType
  exclude_wallets : List String
deriving DecidableEq, Repr

/-- The outcome of a successful selection. -/
structure WalletSelection where
  wallet_id : String
  wallet_config : WalletConfig
  available_balance : ℚ
  risk_capacity : ℚ
  selection_reason : String
deriving DecidableEq, Repr

/-- The wallet manager's tables: wallets and metrics by id, and the
candidate lists per strategy, all in insertion order. -/
structure WalletManagerState where
  wallets : List (String × WalletConfig)
  wallet_metrics : List (String × WalletMetrics)
  strategy_wallet_mapping : List (StrategyType × List String)
deriving DecidableEq, Repr

/-- Base score by wallet type inside
WalletManager::calculate_wallet_score. -/
def base_type_score : WalletType → ℚ
  | .Primary => 10
  | .HFT => 9
  | .Secondary => 8
  | .Arbitrage => 7
  | .Conservative => 6
  | .MEVProtection => 5
  | .Experimental => 4
  | .Emergency => 1

/-- Allocation contribution: the first enabled allocation entry for the
requested strategy contributes a tenth of its percentage. -/
def allocation_score (allocs : List StrategyAllocation) (st : StrategyType) : ℚ :=
  match allocs.find? (fun a => a.strategy_type = st ∧ a.enabled = true) with
  | some a => a.allocation_percentage / 10
  | none => 0

/-- WalletManager::calculate_wallet_score: base type score, allocation
score, and, when metrics exist, balance sufficiency, capped performance
and remaining risk headroom. -/
def calculate_wallet_score (cfg : WalletConfig) (m : Option WalletMetrics)
    (c : WalletSelectionCriteria) : ℚ :=
  base_type_score cfg.wallet_type
  + allocation_score cfg.strategy_allocation c.strategy_type
  + match m with
    | none => 0
    | some mm =>
      (if mm.sol_balance ≥ c.required_balance then 5 else 0)
      + min mm.performance_score 5
      + (100 - mm.risk_utilization) / 20

/-- WalletManager::calculate_risk_capacity. -/
def calculate_risk_capacity (cfg : WalletConfig) (m : Option WalletMetrics) : ℚ :=
  match m with
  | some mm =>
    let max_risk := cfg.risk_limits.max_exposure_percentage / 100 * mm.total_value_usd
    let current_risk := mm.risk_utilization / 100 * max_risk
    max_risk - current_risk
  | none => 0

/-- The WalletSelection record built when a candidate becomes the best
so far (the Best score reason models the formatted message). -/
def make_selection (wm : WalletManagerState) (wid : String) (cfg : WalletConfig)
    (score : ℚ) : WalletSelection :=
  { wallet_id := wid
    wallet_config := cfg
    available_balance := ((assocFind wid wm.wallet_metrics).map (·.sol_balance)).getD 0
    risk_capacity := calculate_risk_capacity cfg (assocFind wid wm.wallet_metrics)
    selection_reason := "Best score: " ++ toString score }

/-- The running best score of the candidate loop: zero while no
candidate has been kept, matching the code's initial best score. -/
def best_score_of : Option (ℚ × WalletSelection) → ℚ
  | none => 0
  | some (s, _) => s

/-- The candidate loop of WalletManager::select_wallet: skip excluded,
non-Active and wrong-typed wallets, abort when a candidate id has no
descriptor, and keep the strictly best-scoring candidate (the running
best score starts at zero). -/
def select_loop (wm : WalletManagerState) (c : WalletSelectionCriteria) :
    List String → Option (ℚ × WalletSelection) → Except String (Option (ℚ × WalletSelection))
  | [], best => .ok best
  | wid :: rest, best =>
    if wid ∈ c.exclude_wallets then select_loop wm c rest best
    else
      match assocFind wid wm.wallets with
      | none => .error ("Wallet not found: " ++ wid)
      | some cfg =>
        if cfg.status ≠ WalletStatus.Active then select_loop wm c rest best
        else if (match c.preferred_wallet_type with
                 | some t => decide (cfg.wallet_type ≠ t)
                 | none => false) = true then select_loop wm c rest best
        else
          let score := calculate_wallet_score cfg (assocFind wid wm.wallet_metrics) c
          if score > best_score_of best then
            select_loop wm c rest (some (score, make_selection wm wid cfg score))
          else select_loop wm c rest best

/-- The candidate list consulted by select_wallet for a strategy. -/
def candidates_of (wm : WalletManagerState) (c : WalletSelectionCriteria) : List String :=
  ((assocFind c.strategy_type wm.strategy_wallet_mapping).getD [])

/-- WalletManager::select_wallet: error when no wallet is configured for
the strategy, otherwise run the scoring loop and fail when it kept no
candidate. -/
def select_wallet (wm : WalletManagerState) (c : WalletSelectionCriteria) :
    Except String WalletSelection :=
  let candidate_wallet_ids := candidates_of wm c
  if candidate_wallet_ids.isEmpty then
    .error "No wallets configured for strategy"
  else
    match select_loop wm c candidate_wallet_ids none with
    | .error e => .error e
    | .ok none => .error "No suitable wallet found for criteria"
    | .ok (some (_, sel)) => .ok sel

/-- A JSON value, modelling serde_json::Value with numbers as exact
rationals. -/
inductive Json where
  | null
  | bool (b : Bool)
  | num (q : ℚ)
  | str (s : String)
  | arr (items : List Json)
  | obj (fields : List (String × Json))

/-- Whitespace accepted between JSON tokens. -/
def isJsonWs (c : Char) : Bool :=
  c = ' ' ∨ c = '\n' ∨ c = '\t' ∨ c = '\r'

/-- Drop leading JSON whitespace. -/
def skipWs : List Char → List Char
  | c :: cs => if isJsonWs c then skipWs cs else c :: cs
  | [] => []

/-- Accumulate a run of decimal digits, returning the value, the number
of digits consumed and the rest. -/
def parseDigits (acc : Nat) (cnt : Nat) : List Char → Nat × Nat × List Char
  | c :: cs =>
    if c.isDigit then parseDigits (acc * 10 + (c.toNat - 48)) (cnt + 1) cs
    else (acc, cnt, c :: cs)
  | [] => (acc, cnt, [])

/-- Parse a JSON number (optional sign, integer part, optional decimal
fraction) into an exact rational. -/
def parseNumber (cs : List Char) : Option (ℚ × List Char) :=
  let signed := match cs with
    | '-' :: rest => (true, rest)
    | _ => (false, cs)
  let (ip, icnt, cs2) := parseDigits 0 0 signed.2
  if icnt = 0 then none
  else
    match cs2 with
    | '.' :: cs3 =>
      let (fp, fcnt, cs4) := parseDigits 0 0 cs3
      if fcnt = 0 then none
      else
        let q : ℚ := (ip : ℚ) + (fp : ℚ) / ((10 : ℚ) ^ fcnt)
        some (if signed.1 then -q else q, cs4)
    | _ => some (if signed.1 then -(ip : ℚ) else (ip : ℚ), cs2)

/-- Read the characters of a JSON string up to the closing quote; an
escape takes the following character literally. -/
def parseStrChars : List Char → Option (List Char × List Char)
  | '"' :: rest => some ([], rest)
  | '\\' :: c :: rest =>
    match parseStrChars rest with
    | some (s, r) => some (c :: s, r)
    | none => none
  | c :: rest =>
    match parseStrChars rest with
    | some (s, r) => some (c :: s, r)
    | none => none
  | [] => none

mutual

/-- Fuel-bounded recursive-descent parser for a JSON value; the fuel is
spent once per nested value, so any fuel at least the input length
suffices. -/
def parseValue : Nat → List Char → Option (Json × List Char)
  | 0, _ => none
  | fuel + 1, cs =>
    match skipWs cs with
    | [] => none
    | c :: rest =>
      if c = 'n' then
        match rest with
        | 'u' :: 'l' :: 'l' :: r => some (.null, r)
        | _ => none
      else if c = 't' then
        match rest with
        | 'r' :: 'u' :: 'e' :: r => some (.bool true, r)
        | _ => none
      else if c = 'f' then
        match rest with
        | 'a' :: 'l' :: 's' :: 'e' :: r => some (.bool false, r)
        | _ => none
      else if c = '"' then
        match parseStrChars rest with
        | some (s, r) => some (.str (String.mk s), r)
        | none => none
      else if c = '[' then
        match skipWs rest with
        | ']' :: r => some (.arr [], r)
        | _ => parseArrayItems fuel rest []
      else if c = '\x7b' then
        match skipWs rest with
        | '\x7d' :: r => some (.obj [], r)
        | _ => parseObjItems fuel rest []
      else
        match parseNumber (c :: rest) with
        | some (q, r) => some (.num q, r)
        | none => none

/-- Comma-separated values of a JSON array, up to the closing bracket. -/
def parseArrayItems : Nat → List Char → List Json → Option (Json × List Char)
  | 0, _, _ => none
  | fuel + 1, cs, acc =>
    match parseValue fuel cs with
    | none => none
    | some (v, rest) =>
      match skipWs rest with
      | ',' :: r => parseArrayItems fuel r (acc ++ [v])
      | ']' :: r => some (.arr (acc ++ [v]), r)
      | _ => none

/-- Comma-separated string-keyed members of a JSON object, up to the
closing brace. -/
def parseObjItems : Nat → List Char → List (String × Json) → Option (Json × List Char)
  | 0, _, _ => none
  | fuel + 1, cs, acc =>
    match skipWs cs with
    | '"' :: r =>
      match parseStrChars r with
      | none => none
      | some (key, r2) =>
        match skipWs r2 with
        | ':' :: r3 =>
          match parseValue fuel r3 with
          | none => none
          | some (v, r4) =>
            match skipWs r4 with
            | ',' :: r5 => parseObjItems fuel r5 (acc ++ [(String.mk key, v)])
            | '\x7d' :: r5 => some (.obj (acc ++ [(String.mk key, v)]), r5)
            | _ => none
        | _ => none
    | _ => none

end

/-- Model of serde_json::from_str for a Value: parse one JSON value and
require only whitespace to remain. -/
def Json.parse (s : String) : Option Json :=
  match parseValue (s.length + 1) s.data with
  | some (j, rest) => if (skipWs rest).isEmpty then some j else none
  | none => none

/-- Model of serde_json Value indexing by a string key: a member of an
object, and null for a missing key or a non-object. -/
def Json.getKey (j : Json) (key : String) : Json :=
  match j with
  | .obj fields => (assocFind key fields).getD .null
  | _ => .null

/-- Model of Value::as_str. -/
def Json.asStr : Json → Option String
  | .str s => some s
  | _ => none

/-- Model of Value::as_f64: any JSON number. -/
def Json.asNum : Json → Option ℚ
  | .num q => some q
  | _ => none

/-- Model of Value::as_u64: a non-negative integral JSON number. -/
def Json.asU64 : Json → Option Nat
  | .num q => if q.den = 1 ∧ 0 ≤ q.num then some q.num.toNat else none
  | _ => none

/-- A signing keypair; the external ed25519 library is abstracted to the
64 key bytes it was built from. -/
structure Keypair where
  bytes : List Nat
deriving DecidableEq, Repr

/-- The bitcoin base58 alphabet used by the bs58 crate. -/
def b58Alphabet : List Char :=
  "123456789ABCDEFGHJKLMNPQRSTUVWXYZabcdefghijkmnopqrstuvwxyz".data

/-- Digit value of one base58 character. -/
def b58Val (c : Char) : Option Nat :=
  b58Alphabet.indexOf? c

/-- Fold base58 digits into a natural number; none on an invalid
character. -/
def b58NumAux (acc : Nat) : List Char → Option Nat
  | [] => some acc
  | c :: cs =>
    match b58Val c with
    | some v => b58NumAux (acc * 58 + v) cs
    | none => none

/-- Big-endian base-256 digits of a natural number (empty for zero);
the first argument is fuel, always sufficient at the number itself. -/
def natToBytesAux : Nat → Nat → List Nat
  | 0, _ => []
  | fuel + 1, n => if n = 0 then [] else natToBytesAux fuel (n / 256) ++ [n % 256]

/-- Big-endian byte expansion of a natural number. -/
def natToBytes (n : Nat) : List Nat :=
  natToBytesAux n n

/-- Leading base58 zeros (the character 1) map to leading zero bytes. -/
def countLeadingOnes : List Char → Nat
  | '1' :: cs => countLeadingOnes cs + 1
  | _ => 0

/-- Model of bs58::decode(...).into_vec(): leading-one zero bytes
followed by the base-256 expansion of the remaining digits. -/
def bs58Decode (s : String) : Option (List Nat) :=
  let cs := s.data
  let z := countLeadingOnes cs
  match b58NumAux 0 (cs.drop z) with
  | some n => some (List.replicate z 0 ++ natToBytes n)
  | none => none

/-- Model of str::starts_with on the character list of a string. -/
def strStartsWith (s pre : String) : Bool :=
  pre.data.isPrefixOf s.data

/-- Model of str::ends_with on the reversed character lists. -/
def strEndsWith (s suf : String) : Bool :=
  suf.data.reverse.isPrefixOf s.data.reverse

/-- The distinct failure messages of WalletManager::parse_private_key. -/
inductive KeyParseError where
  | jsonArrayParse
  | wrongLength (got : Nat)
  | fromBytesFailed
  | unsupportedFormat
deriving DecidableEq, Repr

/-- Model of serde_json deserialization of one u8: an integral JSON
number within byte range. -/
def jsonToU8 : Json → Option Nat
  | .num q => if q.den = 1 ∧ 0 ≤ q.num ∧ q.num < 256 then some q.num.toNat else none
  | _ => none

/-- Model of serde_json::from_str for a byte vector: a JSON array whose
elements all deserialize as bytes. -/
def parseU8Vec (s : String) : Option (List Nat) :=
  match Json.parse s with
  | some (.arr items) => items.mapM jsonToU8
  | _ => none

/-- WalletManager::parse_private_key: a bracket-delimited string must be
a JSON byte array of exactly 64 elements; otherwise base58 material
decoding to exactly 64 bytes is accepted; everything else is the
unsupported-format error. The external Keypair::from_bytes constructor
is passed in as from_bytes. -/
def parse_private_key (from_bytes : List Nat → Option Keypair) (s : String) :
    Except KeyParseError Keypair :=
  if strStartsWith s "[" ∧ strEndsWith s "]" then
    match parseU8Vec s with
    | none => .error .jsonArrayParse
    | some bytes =>
      if bytes.length ≠ 64 then .error (.wrongLength bytes.length)
      else
        match from_bytes bytes with
        | some k => .ok k
        | none => .error .fromBytesFailed
  else
    match bs58Decode s with
    | some bytes =>
      if bytes.length = 64 then
        match from_bytes bytes with
        | some k => .ok k
        | none => .error .fromBytesFailed
      else .error .unsupportedFormat
    | none => .error .unsupportedFormat

/-- HFT engine configuration, from modules/hft_engine.rs. -/
structure HFTConfig where
  tensorzero_gateway_url : String
  jito_endpoint : String
  max_execution_latency_ms : Nat
  max_bundle_size : Nat
  retry_attempts : Nat
  ai_confidence_threshold : ℚ
deriving DecidableEq, Repr

/-- A concrete trading action recommended by the inference service. -/
structure TradingAction where
  action_type : String
  token_in : String
  token_out : String
  amount_in : Nat
  min_amount_out : Nat
  slippage_tolerance : ℚ
  priority_fee : Nat
deriving DecidableEq, Repr

/-- An AI-enhanced trading signal decoded from the inference response;
the generated uuid is modelled as a natural number and the creation
instant is dropped. -/
structure AITradingSignal where
  signal_id : Nat
  signal_type : String
  confidence : ℚ
  action : TradingAction
  estimated_profit : ℚ
  time_window_ms : Nat
  ai_reasoning : String
deriving DecidableEq, Repr

/-- The HFT engine's own execution result enum, from
modules/hft_engine.rs. -/
inductive HFTExecutionResult where
  | executed (signal_id : Nat) (bundle_id : String) (latency_ms : Nat)
      (estimated_profit : ℚ) (ai_confidence : ℚ)
  | skipped (reason : String) (latency_ms : Nat)
  | failed (error : String) (latency_ms : Nat)
deriving DecidableEq, Repr

/-- Result of a Jito bundle submission. -/
structure JitoBundleResult where
  bundle_id : String
  transaction_count : Nat
deriving DecidableEq, Repr

/-- One content block of a TensorZero response. -/
structure TensorZeroContent where
  content_type : String
  text : String
deriving DecidableEq, Repr

/-- A decoded TensorZero inference response; uuids are modelled as
naturals and usage counts are dropped. -/
structure TensorZeroResponse where
  inference_id : Nat
  episode_id : Nat
  variant_name : String
  content : List TensorZeroContent
deriving DecidableEq, Repr

/-- OvermindHFTEngine::parse_ai_response: take the first text content
block, parse its text as JSON, and build the signal with a fallback
default for every missing or mistyped field. The fresh uuid is passed
in. -/
def parse_ai_response (fresh_uuid : Nat) (response : TensorZeroResponse) :
    Except String AITradingSignal :=
  match response.content.find? (fun c => c.content_type = "text") with
  | none => .error "No text content in TensorZero response"
  | some c =>
    match Json.parse c.text with
    | none => .error "Failed to parse AI response as JSON"
    | some ai_data => .ok
      { signal_id := fresh_uuid
        signal_type := ((ai_data.getKey "signal_type").asStr).getD "unknown"
        confidence := ((ai_data.getKey "confidence").asNum).getD 0
        action :=
          { action_type := ((ai_data.getKey "action_type").asStr).getD "hold"
            token_in := ((ai_data.getKey "token_in").asStr).getD "SOL"
            token_out := ((ai_data.getKey "token_out").asStr).getD "USDC"
            amount_in := ((ai_data.getKey "amount_in").asU64).getD 0
            min_amount_out := ((ai_data.getKey "min_amount_out").asU64).getD 0
            slippage_tolerance := ((ai_data.getKey "slippage_tolerance").asNum).getD 0.01
            priority_fee := ((ai_data.getKey "priority_fee").asU64).getD 1000 }
        estimated_profit := ((ai_data.getKey "estimated_profit").asNum).getD 0
        time_window_ms := ((ai_data.getKey "time_window_ms").asU64).getD 1000
        ai_reasoning := ((ai_data.getKey "reasoning").asStr).getD "" }

/-- OvermindHFTEngine::execute_ai_signal: the outcome of the inference
phase (timeouts and transport failures collapsed into the error string)
and of the bundle phase are passed in, as is the elapsed-time reading
used for latency fields. Returns the engine result paired with whether
the Jito bundle submission phase was entered. -/
def execute_ai_signal (cfg : HFTConfig) (ai_outcome : Except String AITradingSignal)
    (bundle_outcome : Except String JitoBundleResult) (elapsed_ms : Nat) :
    Except String HFTExecutionResult × Bool :=
  match ai_outcome with
  | .error e => (.error e, false)
  | .ok ai_signal =>
    if ai_signal.confidence < cfg.ai_confidence_threshold then
      (.ok (.skipped ("Low AI confidence: " ++ toString ai_signal.confidence) elapsed_ms),
        false)
    else
      match bundle_outcome with
      | .error e => (.error e, true)
      | .ok br =>
        (.ok (.executed ai_signal.signal_id br.bundle_id elapsed_ms
          ai_signal.estimated_profit ai_signal.confidence), true)

/-- Trading mode from config.rs. -/
inductive TradingMode where
  | Paper
  | Live
deriving DecidableEq, Repr

/-- Pipeline-level execution status, from modules/executor.rs. -/
inductive ExecutionStatus where
  | Pending
  | Confirmed
  | Failed
  | Cancelled
deriving DecidableEq, Repr

/-- The execution result sent to persistence, from modules/executor.rs. -/
structure ExecutionResult where
  signal_id : String
  transaction_id : String
  status : ExecutionStatus
  executed_quantity : ℚ
  executed_price : ℚ
  fees : ℚ
  timestamp : Nat
  error_message : Option String
deriving DecidableEq, Repr

/-- A signal bound to a selected wallet, from
modules/multi_wallet_executor.rs. -/
structure RoutedSignal where
  original_signal : ApprovedSignal
  selected_wallet_id : String
  wallet_selection_reason : String
  routing_timestamp : Nat
deriving DecidableEq, Repr

/-- The multi-wallet executor's configuration fields that govern
processing. -/
structure MWExecutorConfig where
  trading_mode : TradingMode
  hft_mode_enabled : Bool
  hft_config : HFTConfig
  wallet_selection_timeout_ms : Nat
  fallback_wallet_id : Option String
deriving DecidableEq, Repr

/-- The nondeterministic surroundings of one process_signal run: the
clock, the generated uuid, whether the selection future timed out, the
outcomes of the inference and bundle calls, and the external keypair
constructor. -/
structure ExecEnv where
  now : Nat
  fresh_uuid : String
  elapsed_ms : Nat
  selection_timed_out : Bool
  ai_outcome : Except String AITradingSignal
  bundle_outcome : Except String JitoBundleResult
  from_bytes : List Nat → Option Keypair

/-- MultiWalletExecutor::determine_preferred_wallet_type. -/
def determine_preferred_wallet_type : StrategyType → Option WalletType
  | .Arbitrage => some .Arbitrage
  | .TokenSniping => some .HFT
  | .MomentumTrading => some .Primary
  | .SoulMeteorSniping => some .Experimental
  | .MeteoraDAMM => some .Experimental
  | .DeveloperTracking => some .Experimental
  | .AxiomMemeCoin => some .Experimental
  | .AIDecision => some .Primary

/-- MultiWalletExecutor::select_wallet_for_signal: build the criteria
from the signal (required balance with a ten percent buffer), run the
manager's selection under the timeout, and wrap failures into error
strings. -/
def select_wallet_for_signal (cfg : MWExecutorConfig) (wm : WalletManagerState)
    (env : ExecEnv) (signal : ApprovedSignal) : Except String RoutedSignal :=
  let criteria : WalletSelectionCriteria :=
    { strategy_type := signal.original_signal.strategy_type
      required_balance := signal.approved_quantity * signal.original_signal.target_price * 1.1
      risk_tolerance := signal.risk_score
      preferred_wallet_type := determine_preferred_wallet_type signal.original_signal.strategy_type
      exclude_wallets := [] }
  if env.selection_timed_out then
    .error ("Wallet selection timed out after " ++ toString cfg.wallet_selection_timeout_ms ++ "ms")
  else
    match select_wallet wm criteria with
    | .ok selection => .ok
      { original_signal := signal
        selected_wallet_id := selection.wallet_id
        wallet_selection_reason := selection.selection_reason
        routing_timestamp := env.now }
    | .error e => .error ("Wallet selection failed: " ++ e)

/-- MultiWalletExecutor::execute_paper_trade_with_wallet: synthetic
confirmed fill at the target price with a ten-basis-point fee. -/
def execute_paper_trade_with_wallet (routed : RoutedSignal) (env : ExecEnv) :
    ExecutionResult :=
  { signal_id := routed.original_signal.original_signal.signal_id
    transaction_id := "paper_" ++ env.fresh_uuid
    status := .Confirmed
    executed_quantity := routed.original_signal.approved_quantity
    executed_price := routed.original_signal.original_signal.target_price
    fees := routed.original_signal.approved_quantity
      * routed.original_signal.original_signal.target_price * 0.001
    timestamp := env.now
    error_message := none }

/-- MultiWalletExecutor::execute_live_trade_with_wallet: placeholder
live fill with slippage applied to the price and a higher fee; no bundle
is submitted here. -/
def execute_live_trade_with_wallet (routed : RoutedSignal) (env : ExecEnv) :
    ExecutionResult :=
  { signal_id := routed.original_signal.original_signal.signal_id
    transaction_id := env.fresh_uuid
    status := .Confirmed
    executed_quantity := routed.original_signal.approved_quantity
    executed_price := routed.original_signal.original_signal.target_price * 1.005
    fees := routed.original_signal.approved_quantity
      * routed.original_signal.original_signal.target_price * 0.0025
    timestamp := env.now
    error_message := none }

/-- MultiWalletExecutor::execute_ai_paper_trade_with_wallet: only an
Executed engine outcome yields the reduced-fee AI paper fill; every
other outcome falls back to the plain paper trade. The boolean records
whether the engine entered bundle submission. -/
def execute_ai_paper_trade_with_wallet (cfg : MWExecutorConfig) (routed : RoutedSignal)
    (env : ExecEnv) : ExecutionResult × Bool :=
  if cfg.hft_mode_enabled then
    match execute_ai_signal cfg.hft_config env.ai_outcome env.bundle_outcome env.elapsed_ms with
    | (.ok (.executed _ _ _ _ _), att) =>
      ({ signal_id := routed.original_signal.original_signal.signal_id
         transaction_id := "ai_paper_" ++ env.fresh_uuid
         status := .Confirmed
         executed_quantity := routed.original_signal.approved_quantity
         executed_price := routed.original_signal.original_signal.target_price
         fees := routed.original_signal.approved_quantity
           * routed.original_signal.original_signal.target_price * 0.0005
         timestamp := env.now
         error_message := none }, att)
    | (_, att) => (execute_paper_trade_with_wallet routed env, att)
  else (execute_paper_trade_with_wallet routed env, false)

/-- MultiWalletExecutor::execute_ai_live_trade_with_wallet: an Executed
engine outcome becomes a confirmed result whose transaction id is the
bundle id; a Skipped or Failed outcome or an engine error falls back to
the plain live trade. -/
def execute_ai_live_trade_with_wallet (cfg : MWExecutorConfig) (routed : RoutedSignal)
    (env : ExecEnv) : ExecutionResult × Bool :=
  if cfg.hft_mode_enabled then
    match execute_ai_signal cfg.hft_config env.ai_outcome env.bundle_outcome env.elapsed_ms with
    | (.ok (.executed _ bundle_id _ _ _), att) =>
      ({ signal_id := routed.original_signal.original_signal.signal_id
         transaction_id := bundle_id
         status := .Confirmed
         executed_quantity := routed.original_signal.approved_quantity
         executed_price := routed.original_signal.original_signal.target_price * 1.002
         fees := routed.original_signal.approved_quantity
           * routed.original_signal.original_signal.target_price * 0.0015
         timestamp := env.now
         error_message := none }, att)
    | (_, att) => (execute_live_trade_with_wallet routed env, att)
  else (execute_live_trade_with_wallet routed env, false)

/-- The mode dispatch of execute_routed_signal: which of the four trade
paths runs, paired with whether it entered bundle submission. -/
def dispatch_trade (cfg : MWExecutorConfig) (routed : RoutedSignal) (env : ExecEnv) :
    ExecutionResult × Bool :=
  match cfg.trading_mode, cfg.hft_mode_enabled with
  | .Paper, false => (execute_paper_trade_with_wallet routed env, false)
  | .Paper, true => execute_ai_paper_trade_with_wallet cfg routed env
  | .Live, false => (execute_live_trade_with_wallet routed env, false)
  | .Live, true => execute_ai_live_trade_with_wallet cfg routed env

/-- MultiWalletExecutor::execute_routed_signal: fetch the wallet and its
keypair (an error aborts processing), dispatch on the mode pair, and
prefix the transaction id with the wallet id. -/
def execute_routed_signal (cfg : MWExecutorConfig) (wm : WalletManagerState)
    (env : ExecEnv) (routed : RoutedSignal) : Except String (ExecutionResult × Bool) :=
  match assocFind routed.selected_wallet_id wm.wallets with
  | none => .error ("Wallet not found: " ++ routed.selected_wallet_id)
  | some wcfg =>
    match parse_private_key env.from_bytes wcfg.private_key with
    | .error _ => .error "Invalid private key format"
    | .ok _ =>
      .ok ({ (dispatch_trade cfg routed env).1 with
             transaction_id := routed.selected_wallet_id ++ "_"
               ++ (dispatch_trade cfg routed env).1.transaction_id },
        (dispatch_trade cfg routed env).2)

/-- What one process_signal run leaves behind: the results sent to the
persistence channel, the function's return value, and whether a bundle
submission was entered anywhere. -/
structure ProcessOutcome where
  sent : List ExecutionResult
  ret : Except String Unit
  bundle_attempted : Bool
deriving Repr

/-- Execution and persistence stages shared by both routing outcomes of
process_signal: a successful execution sends exactly its one result, a
failed one sends nothing and returns the error. -/
def process_signal_finish (cfg : MWExecutorConfig) (wm : WalletManagerState)
    (env : ExecEnv) (routed : RoutedSignal) : ProcessOutcome :=
  match execute_routed_signal cfg wm env routed with
  | .ok (result, att) => { sent := [result], ret := .ok (), bundle_attempted := att }
  | .error e => { sent := [], ret := .error e, bundle_attempted := false }

/-- MultiWalletExecutor::process_signal: route the approved signal,
falling back to the configured fallback wallet id on any selection
failure; without a fallback the error is returned and nothing is sent
downstream. -/
def process_signal (cfg : MWExecutorConfig) (wm : WalletManagerState)
    (env : ExecEnv) (signal : ApprovedSignal) : ProcessOutcome :=
  match select_wallet_for_signal cfg wm env signal with
  | .ok routed => process_signal_finish cfg wm env routed
  | .error _ =>
    match cfg.fallback_wallet_id with
    | some fallback_id =>
      process_signal_finish cfg wm env
        { original_signal := signal
          selected_wallet_id := fallback_id
          wallet_selection_reason := "Fallback due to selection failure"
          routing_timestamp := env.now }
    | none =>
      { sent := []
        ret := .error "No suitable wallet found and no fallback configured"
        bundle_attempted := false }

/-- Whether an Except value is a success. -/
def exceptIsOk {ε α : Type} : Except ε α → Bool
  | .ok _ => true
  | .error _ => false

/-- A candidate wallet id survives every skip test of the selection
loop: not excluded, present in the registry, Active, and of the
preferred type when one is given. -/
def eligible_candidate (wm : WalletManagerState) (c : WalletSelectionCriteria)
    (wid : String) : Bool :=
  decide (wid ∉ c.exclude_wallets) &&
  (match assocFind wid wm.wallets with
   | some cfg =>
     decide (cfg.status = WalletStatus.Active) &&
       (match c.preferred_wallet_type with
        | some t => decide (cfg.wallet_type = t)
        | none => true)
   | none => false)

/-- The score the selection loop computes for a candidate id. -/
def candidate_score (wm : WalletManagerState) (c : WalletSelectionCriteria)
    (wid : String) : ℚ :=
  match assocFind wid wm.wallets with
  | some cfg => calculate_wallet_score cfg (assocFind wid wm.wallet_metrics) c
  | none => 0

/-- Keypair constructor model that accepts any byte vector. -/
def keypairOfBytes : List Nat → Option Keypair :=
  fun bs => some { bytes := bs }

/-- Shared wallet risk limits for the concrete scenarios. -/
def riskLimitsW : WalletRiskLimits :=
  { max_daily_loss := 1000, max_position_size := 10000, max_concurrent_positions := 10
    max_exposure_percentage := 80, stop_loss_threshold := 5, daily_trade_limit := 100 }

/-- Concrete risk parameters: global clamp 1000, daily loss 500,
confidence floor six tenths. -/
def riskParamsW : RiskParameters :=
  { max_position_size := 1000, max_daily_loss := 500, min_confidence_threshold := 0.6 }

/-- Arbitrage intent asking for 1500 units, above the global clamp. -/
def signalRawA : TradingSignal :=
  { signal_id := "sig-a", symbol := "SOL/USDC", action := .Buy, quantity := 1500
    target_price := 100, confidence := 0.8, timestamp := 0, strategy_type := .Arbitrage }

/-- The same intent asking for 2000 units. -/
def signalRawB : TradingSignal :=
  { signal_id := "sig-b", symbol := "SOL/USDC", action := .Buy, quantity := 2000
    target_price := 100, confidence := 0.8, timestamp := 0, strategy_type := .Arbitrage }

/-- The default HFT engine configuration from hft_engine.rs. -/
def hftConfigW : HFTConfig :=
  { tensorzero_gateway_url := "http://localhost:3000"
    jito_endpoint := "https://mainnet.block-engine.jito.wtf"
    max_execution_latency_ms := 25, max_bundle_size := 5, retry_attempts := 3
    ai_confidence_threshold := 0.7 }

/-- An inference decision whose confidence 0.4 is below the 0.7
threshold. -/
def lowConfSignalW : AITradingSignal :=
  { signal_id := 7, signal_type := "momentum", confidence := 0.4
    action :=
      { action_type := "buy", token_in := "SOL", token_out := "USDC", amount_in := 100
        min_amount_out := 99, slippage_tolerance := 0.01, priority_fee := 1000 }
    estimated_profit := 5, time_window_ms := 1000, ai_reasoning := "weak momentum" }

/-- Live trading with the AI engine enabled and no fallback wallet. -/
def mwConfigLiveAiW : MWExecutorConfig :=
  { trading_mode := .Live, hft_mode_enabled := true, hft_config := hftConfigW
    wallet_selection_timeout_ms := 100, fallback_wallet_id := none }

/-- An empty wallet manager. -/
def emptyWmW : WalletManagerState :=
  { wallets := [], wallet_metrics := [], strategy_wallet_mapping := [] }

/-- A risk-approved form of the first concrete intent. -/
def approvedW : ApprovedSignal :=
  { original_signal := signalRawA, approved_quantity := 1000, risk_score := 0.63
    approval_timestamp := 0 }

/-- Environment in which the inference call returned the low-confidence
decision. -/
def envSkipW : ExecEnv :=
  { now := 0, fresh_uuid := "uuid-1", elapsed_ms := 3, selection_timed_out := false
    ai_outcome := .ok lowConfSignalW, bundle_outcome := .error "unused"
    from_bytes := keypairOfBytes }

/-- An inference response whose single text block is the empty JSON
object, so every decision field is missing. -/
def respEmptyObjW : TensorZeroResponse :=
  { inference_id := 0, episode_id := 0, variant_name := "v"
    content := [{ content_type := "text", text := "\x7b\x7d" }] }

/-- The decision parse_ai_response builds from an empty object: every
field holds its silent fallback. -/
def defaultedSignalW : AITradingSignal :=
  { signal_id := 0, signal_type := "unknown", confidence := 0
    action :=
      { action_type := "hold", token_in := "SOL", token_out := "USDC", amount_in := 0
        min_amount_out := 0, slippage_tolerance := 0.01, priority_fee := 1000 }
    estimated_profit := 0, time_window_ms := 1000, ai_reasoning := "" }

/-- An Active Primary wallet with half its allocation on token
sniping. -/
def walletW1 : WalletConfig :=
  { wallet_id := "W1", name := "main", description := "", private_key := "k"
    public_key := "p", wallet_type := .Primary
    strategy_allocation := [{ strategy_type := .TokenSniping, allocation_percentage := 50
                              max_position_size := 1000, enabled := true }]
    risk_limits := riskLimitsW, status := .Active }

/-- Metrics of walletW1. -/
def metricsW1 : WalletMetrics :=
  { wallet_id := "W1", sol_balance := 100, total_value_usd := 1000, daily_pnl := 0
    total_pnl := 0, trade_count_today := 0, risk_utilization := 20, performance_score := 3 }

/-- One-wallet manager state for the selection scenarios. -/
def wmSelW : WalletManagerState :=
  { wallets := [("W1", walletW1)], wallet_metrics := [("W1", metricsW1)]
    strategy_wallet_mapping := [(.TokenSniping, ["W1"])] }

/-- Criteria matching walletW1 with no type preference. -/
def critSelW : WalletSelectionCriteria :=
  { strategy_type := .TokenSniping, required_balance := 10, risk_tolerance := 0
    preferred_wallet_type := none, exclude_wallets := [] }

/-- The selection the loop produces for wmSelW: score 27. -/
def selSelW : WalletSelection :=
  make_selection wmSelW "W1" walletW1 27

/-- First of two Primary wallets that tie on the selection score. -/
def walletTieA : WalletConfig :=
  { wallet_id := "A", name := "a", description := "", private_key := "k"
    public_key := "p", wallet_type := .Primary
    strategy_allocation := [{ strategy_type := .TokenSniping, allocation_percentage := 50
                              max_position_size := 1000, enabled := true }]
    risk_limits := riskLimitsW, status := .Active }

/-- Second wallet of the tie, identical in configuration. -/
def walletTieB : WalletConfig :=
  { walletTieA with wallet_id := "B", name := "b" }

/-- Metrics of wallet A: performance 4, risk utilization 80. -/
def metricsTieA : WalletMetrics :=
  { wallet_id := "A", sol_balance := 100, total_value_usd := 1000, daily_pnl := 0
    total_pnl := 0, trade_count_today := 0, risk_utilization := 80, performance_score := 4 }

/-- Metrics of wallet B: performance 2, risk utilization 40, giving the
same total score as A. -/
def metricsTieB : WalletMetrics :=
  { wallet_id := "B", sol_balance := 100, total_value_usd := 1000, daily_pnl := 0
    total_pnl := 0, trade_count_today := 0, risk_utilization := 40, performance_score := 2 }

/-- Manager state with the two tied wallets, A listed first. -/
def wmTieW : WalletManagerState :=
  { wallets := [("A", walletTieA), ("B", walletTieB)]
    wallet_metrics := [("A", metricsTieA), ("B", metricsTieB)]
    strategy_wallet_mapping := [(.TokenSniping, ["A", "B"])] }

/-- Criteria under which A and B both score 25. -/
def critTieW : WalletSelectionCriteria :=
  { strategy_type := .TokenSniping, required_balance := 10, risk_tolerance := 0
    preferred_wallet_type := none, exclude_wallets := [] }

/-- The selection actually returned in the tie: wallet A. -/
def selTieAW : WalletSelection :=
  make_selection wmTieW "A" walletTieA 25

/-- Paper trading, engine off, no fallback wallet. -/
def mwConfigPaperNoFbW : MWExecutorConfig :=
  { trading_mode := .Paper, hft_mode_enabled := false, hft_config := hftConfigW
    wallet_selection_timeout_ms := 100, fallback_wallet_id := none }

/-- The only wallet is an Active Conservative one whose Arbitrage
allocation is disabled, so the strategy mapping has no Arbitrage
entry. -/
def walletConsW : WalletConfig :=
  { wallet_id := "CONS", name := "cons", description := "", private_key := "k"
    public_key := "p", wallet_type := .Conservative
    strategy_allocation := [{ strategy_type := .Arbitrage, allocation_percentage := 50
                              max_position_size := 1000, enabled := false },
                            { strategy_type := .TokenSniping, allocation_percentage := 50
                              max_position_size := 1000, enabled := true }]
    risk_limits := riskLimitsW, status := .Active }

/-- Manager state of the router-starvation scenario. -/
def wmConsW : WalletManagerState :=
  { wallets := [("CONS", walletConsW)], wallet_metrics := []
    strategy_wallet_mapping := [(.TokenSniping, ["CONS"])] }

/-- An Arbitrage intent. -/
def signalArbW : TradingSignal :=
  { signal_id := "sig-arb", symbol := "SOL/USDC", action := .Buy, quantity := 100
    target_price := 100, confidence := 0.8, timestamp := 0, strategy_type := .Arbitrage }

/-- Its risk-approved form. -/
def approvedArbW : ApprovedSignal :=
  { original_signal := signalArbW, approved_quantity := 100, risk_score := 0.2
    approval_timestamp := 0 }

/-- Environment with every external call switched off and no timeout. -/
def envPlainW : ExecEnv :=
  { now := 0, fresh_uuid := "u2", elapsed_ms := 0, selection_timed_out := false
    ai_outcome := .error "off", bundle_outcome := .error "off"
    from_bytes := keypairOfBytes }

/-- Base58 signing material of 64 leading-zero bytes: 64 ones. -/
def fbKeyW : String :=
  String.mk (List.replicate 64 '1')

/-- The configured fallback wallet: Suspended, never selectable by the
router. -/
def walletFbW : WalletConfig :=
  { wallet_id := "FB", name := "fallback", description := "", private_key := fbKeyW
    public_key := "p", wallet_type := .Secondary, strategy_allocation := []
    risk_limits := riskLimitsW, status := .Suspended }

/-- Manager state holding only the Suspended fallback wallet. -/
def wmFbW : WalletManagerState :=
  { wallets := [("FB", walletFbW)], wallet_metrics := [], strategy_wallet_mapping := [] }

/-- Paper trading with fallback wallet id FB configured. -/
def mwConfigFbW : MWExecutorConfig :=
  { trading_mode := .Paper, hft_mode_enabled := false, hft_config := hftConfigW
    wallet_selection_timeout_ms := 100, fallback_wallet_id := some "FB" }

/-- Environment in which the wallet-selection future timed out. -/
def envTimeoutW : ExecEnv :=
  { now := 0, fresh_uuid := "u3", elapsed_ms := 0, selection_timed_out := true
    ai_outcome := .error "off", bundle_outcome := .error "off"
    from_bytes := keypairOfBytes }

/-- The approval the risk gate produces for the 2000-unit intent; its
risk score differs from the 1500-unit one although both clamp to the
same approved size. -/
def approvedBW : ApprovedSignal :=
  { original_signal := signalRawB, approved_quantity := 1000, risk_score := 0.78
    approval_timestamp := 0 }

/-- Concrete evaluation of the risk gate on the 1500-unit intent. -/
lemma evaluateSignalRawA_eq :
    evaluate_signal riskParamsW 0 0 signalRawA = some approvedW := by
  norm_num [evaluate_signal, check_position_limits, check_daily_loss_limits,
    calculate_risk_score, strategy_type_risk, riskParamsW, signalRawA, approvedW,
    min_def]

/-- Concrete evaluation of the risk gate on the 2000-unit intent. -/
lemma evaluateSignalRawB_eq :
    evaluate_signal riskParamsW 0 0 signalRawB = some approvedBW := by
  norm_num [evaluate_signal, check_position_limits, check_daily_loss_limits,
    calculate_risk_score, strategy_type_risk, riskParamsW, signalRawB, approvedBW,
    min_def]

/-- The clamp in check_position_limits is the binary minimum. -/
lemma check_position_limits_eq_min (p : RiskParameters) (s : TradingSignal) :
    check_position_limits p s = min s.quantity p.max_position_size := by
  unfold check_position_limits
  split_ifs with h
  · exact (min_eq_right h.le).symm
  · exact (min_eq_left (not_lt.mp h)).symm

/-- Anatomy of a successful risk evaluation: the approval carries the
original signal, the clamped quantity, the computed risk score and the
clock reading, and the clamped quantity is positive. -/
lemma evaluate_signal_some (p : RiskParameters) (daily_pnl : ℚ) (now : Nat)
    (s : TradingSignal) (a : ApprovedSignal)
    (h : evaluate_signal p daily_pnl now s = some a) :
    a.original_signal = s ∧
    a.approved_quantity = check_position_limits p s ∧
    a.risk_score = calculate_risk_score p s ∧
    a.approval_timestamp = now ∧
    0 < check_position_limits p s := by
  simp only [evaluate_signal] at h
  split_ifs at h with h1 h2 h3
  all_goals
    first
      | exact Option.noConfusion h
      | (injection h with h
         subst h
         exact ⟨rfl, rfl, rfl, rfl, lt_of_not_le h2⟩)

/-- Claim C10: calculate_slippage is total with range inside the unit
interval for any non-negative order size, and returns exactly one on
non-positive liquidity, so the division is guarded. -/
theorem slippage_total_and_bounded (order_size liquidity price : ℚ)
    (h : 0 ≤ order_size) :
    0 ≤ calculate_slippage order_size liquidity price ∧
    calculate_slippage order_size liquidity price ≤ 1 ∧
    (liquidity ≤ 0 → calculate_slippage order_size liquidity price = 1) := by
  by_cases hl : liquidity ≤ 0
  · simp [calculate_slippage, hl]
  · have hl2 : 0 < liquidity := lt_of_not_le hl
    simp only [calculate_slippage, if_neg hl]
    have hr : 0 ≤ order_size / liquidity := div_nonneg h hl2.le
    have hbase : 0 ≤ min (order_size / liquidity) 0.5 := le_min hr (by norm_num)
    have hpf : (0 : ℚ) ≤ (if price < 0.01 then 1.5 else if price < 1 then 1.2 else 1) := by
      split_ifs <;> norm_num
    exact ⟨le_min (mul_nonneg hbase hpf) (by norm_num), min_le_right _ _,
      fun hc => absurd hc hl⟩

/-- Witness for C10 at order size 100, liquidity 0, price 10. -/
theorem slippage_total_and_bounded_witness :
    0 ≤ calculate_slippage 100 0 10 ∧
    calculate_slippage 100 0 10 ≤ 1 ∧
    ((0 : ℚ) ≤ 0 → calculate_slippage 100 0 10 = 1) :=
  slippage_total_and_bounded 100 0 10 (by norm_num)

/-- Claim C5: an approved signal's quantity is the minimum of the
requested quantity and the global maximum position size, hence at most
each of them. -/
theorem approved_size_clamped (p : RiskParameters) (daily_pnl : ℚ) (now : Nat)
    (s : TradingSignal) (a : ApprovedSignal)
    (h : evaluate_signal p daily_pnl now s = some a) :
    a.approved_quantity = min s.quantity p.max_position_size ∧
    a.approved_quantity ≤ s.quantity ∧
    a.approved_quantity ≤ p.max_position_size := by
  obtain ⟨-, hq, -, -, -⟩ := evaluate_signal_some p daily_pnl now s a h
  rw [hq, check_position_limits_eq_min]
  exact ⟨rfl, min_le_left _ _, min_le_right _ _⟩

/-- Witness for C5: the 1500-unit intent is approved at the 1000-unit
global clamp. -/
theorem approved_size_clamped_witness :
    approvedW.approved_quantity = min signalRawA.quantity riskParamsW.max_position_size ∧
    approvedW.approved_quantity ≤ signalRawA.quantity ∧
    approvedW.approved_quantity ≤ riskParamsW.max_position_size :=
  approved_size_clamped riskParamsW 0 0 signalRawA approvedW evaluateSignalRawA_eq

/-- Claim C4 as amended: the risk score of an approval equals the
confidence term plus three tenths of the ratio of the RAW requested
quantity to the global maximum plus the per-strategy constant, capped
above at one; for confidence at most one the result is also positive. -/
theorem risk_score_formula (p : RiskParameters) (daily_pnl : ℚ) (now : Nat)
    (s : TradingSignal) (a : ApprovedSignal)
    (h : evaluate_signal p daily_pnl now s = some a) :
    a.risk_score =
      min ((1 - s.confidence) * 0.4 + s.quantity / p.max_position_size * 0.3
        + strategy_type_risk s.strategy_type) 1 ∧
    a.risk_score ≤ 1 ∧
    (s.confidence ≤ 1 → 0 < a.risk_score) := by
  obtain ⟨-, -, hr, -, hpos⟩ := evaluate_signal_some p daily_pnl now s a h
  rw [check_position_limits_eq_min] at hpos
  have hqq : 0 < s.quantity := (lt_min_iff.mp hpos).1
  have hmax : 0 < p.max_position_size := (lt_min_iff.mp hpos).2
  rw [hr]
  unfold calculate_risk_score
  refine ⟨rfl, min_le_right _ _, fun hconf => ?_⟩
  have h1 : 0 ≤ (1 - s.confidence) * 0.4 := mul_nonneg (by linarith) (by norm_num)
  have h2 : 0 < s.quantity / p.max_position_size * 0.3 :=
    mul_pos (div_pos hqq hmax) (by norm_num)
  have h3 : 0 < strategy_type_risk s.strategy_type := by
    cases s.strategy_type <;> norm_num [strategy_type_risk]
  exact lt_min (by linarith) (by norm_num)

/-- Witness for the amended C4 at the 1500-unit Arbitrage intent. -/
theorem risk_score_formula_witness :
    approvedW.risk_score =
      min ((1 - signalRawA.confidence) * 0.4
        + signalRawA.quantity / riskParamsW.max_position_size * 0.3
        + strategy_type_risk signalRawA.strategy_type) 1 ∧
    approvedW.risk_score ≤ 1 ∧
    (signalRawA.confidence ≤ 1 → 0 < approvedW.risk_score) :=
  risk_score_formula riskParamsW 0 0 signalRawA approvedW evaluateSignalRawA_eq

/-- Counterexample to C4 as stated: two intents with identical
confidence, identical strategy and identical clamped approved size are
given different risk scores, so the score cannot be the claimed
function of confidence, approved size and strategy for any weight
table: the code divides the RAW requested quantity by the maximum. -/
theorem risk_score_uses_raw_quantity_cex :
    evaluate_signal riskParamsW 0 0 signalRawA = some approvedW ∧
    evaluate_signal riskParamsW 0 0 signalRawB = some approvedBW ∧
    check_position_limits riskParamsW signalRawA = check_position_limits riskParamsW signalRawB ∧
    signalRawA.confidence = signalRawB.confidence ∧
    signalRawA.strategy_type = signalRawB.strategy_type ∧
    approvedW.risk_score ≠ approvedBW.risk_score := by
  refine ⟨evaluateSignalRawA_eq, evaluateSignalRawB_eq, ?_, rfl, rfl, ?_⟩
  · norm_num [check_position_limits, riskParamsW, signalRawA, signalRawB]
  · norm_num [approvedW, approvedBW]

/-- A below-threshold inference decision makes the engine return the
Skipped result with the low-confidence reason, without entering bundle
submission. -/
lemma execute_ai_signal_skip (cfg : HFTConfig) (sig : AITradingSignal)
    (bundle : Except String JitoBundleResult) (elapsed : Nat)
    (h : sig.confidence < cfg.ai_confidence_threshold) :
    execute_ai_signal cfg (.ok sig) bundle elapsed =
      (.ok (.skipped ("Low AI confidence: " ++ toString sig.confidence) elapsed), false) := by
  simp [execute_ai_signal, h]

/-- Under a below-threshold decision the Live/AI wallet path never
enters bundle submission. -/
lemma execute_ai_live_no_bundle (cfg : MWExecutorConfig) (routed : RoutedSignal)
    (env : ExecEnv) (sig : AITradingSignal)
    (henv : env.ai_outcome = .ok sig)
    (h : sig.confidence < cfg.hft_config.ai_confidence_threshold) :
    (execute_ai_live_trade_with_wallet cfg routed env).2 = false := by
  cases hhm : cfg.hft_mode_enabled with
  | false => simp [execute_ai_live_trade_with_wallet, hhm]
  | true =>
    simp [execute_ai_live_trade_with_wallet, hhm, henv,
      execute_ai_signal_skip cfg.hft_config sig env.bundle_outcome env.elapsed_ms h]

/-- Under a below-threshold decision the Paper/AI wallet path never
enters bundle submission. -/
lemma execute_ai_paper_no_bundle (cfg : MWExecutorConfig) (routed : RoutedSignal)
    (env : ExecEnv) (sig : AITradingSignal)
    (henv : env.ai_outcome = .ok sig)
    (h : sig.confidence < cfg.hft_config.ai_confidence_threshold) :
    (execute_ai_paper_trade_with_wallet cfg routed env).2 = false := by
  cases hhm : cfg.hft_mode_enabled with
  | false => simp [execute_ai_paper_trade_with_wallet, hhm]
  | true =>
    simp [execute_ai_paper_trade_with_wallet, hhm, henv,
      execute_ai_signal_skip cfg.hft_config sig env.bundle_outcome env.elapsed_ms h]

/-- Under a below-threshold decision no execution path of
execute_routed_signal enters bundle submission. -/
lemma execute_routed_no_bundle (cfg : MWExecutorConfig) (wm : WalletManagerState)
    (env : ExecEnv) (routed : RoutedSignal) (sig : AITradingSignal)
    (henv : env.ai_outcome = .ok sig)
    (h : sig.confidence < cfg.hft_config.ai_confidence_threshold)
    (r : ExecutionResult) (att : Bool)
    (hr : execute_routed_signal cfg wm env routed = .ok (r, att)) :
    att = false := by
  have hdispatch : (dispatch_trade cfg routed env).2 = false := by
    unfold dispatch_trade
    cases htm : cfg.trading_mode <;> cases hhm : cfg.hft_mode_enabled
    all_goals
      first
        | rfl
        | exact execute_ai_paper_no_bundle cfg routed env sig henv h
        | exact execute_ai_live_no_bundle cfg routed env sig henv h
  unfold execute_routed_signal at hr
  split at hr
  · exact Except.noConfusion hr
  · split at hr
    · exact Except.noConfusion hr
    · injection hr with hr
      have hsnd := congrArg Prod.snd hr
      simp only [] at hsnd
      rw [← hsnd]
      exact hdispatch

/-- Under a below-threshold decision a whole process_signal run never
enters bundle submission, whatever routing does. -/
lemma process_signal_no_bundle (cfg : MWExecutorConfig) (wm : WalletManagerState)
    (env : ExecEnv) (signal : ApprovedSignal) (sig : AITradingSignal)
    (henv : env.ai_outcome = .ok sig)
    (h : sig.confidence < cfg.hft_config.ai_confidence_threshold) :
    (process_signal cfg wm env signal).bundle_attempted = false := by
  have hfin : ∀ routed, (process_signal_finish cfg wm env routed).bundle_attempted = false := by
    intro routed
    unfold process_signal_finish
    cases hr : execute_routed_signal cfg wm env routed with
    | error e => simp
    | ok pair =>
      obtain ⟨r, att⟩ := pair
      simpa using execute_routed_no_bundle cfg wm env routed sig henv h r att hr
  unfold process_signal
  cases hsel : select_wallet_for_signal cfg wm env signal with
  | ok routed => exact hfin routed
  | error e =>
    cases hfb : cfg.fallback_wallet_id with
    | some fid => exact hfin _
    | none => rfl

/-- Claim C1: in Live/AI mode, when the inference call returns a
decision whose confidence is strictly below the threshold, the engine
emits the Skipped execution result whose reason text contains the word
confidence, and no bundle submission happens anywhere while processing
that intent. -/
theorem ai_skip_emits_skipped_without_submission (cfg : HFTConfig) (sig : AITradingSignal)
    (bundle : Except String JitoBundleResult) (elapsed : Nat)
    (mcfg : MWExecutorConfig) (wm : WalletManagerState) (env : ExecEnv)
    (signal : ApprovedSignal)
    (hconf : sig.confidence < cfg.ai_confidence_threshold)
    (henv : env.ai_outcome = .ok sig)
    (hcfg : mcfg.hft_config = cfg)
    (hlive : mcfg.trading_mode = .Live)
    (hhft : mcfg.hft_mode_enabled = true) :
    execute_ai_signal cfg (.ok sig) bundle elapsed =
      (.ok (.skipped ("Low AI confidence: " ++ toString sig.confidence) elapsed), false) ∧
    (∃ s1 s2, ("Low AI confidence: " ++ toString sig.confidence) = s1 ++ "confidence" ++ s2) ∧
    (process_signal mcfg wm env signal).bundle_attempted = false := by
  refine ⟨execute_ai_signal_skip cfg sig bundle elapsed hconf, ?_, ?_⟩
  · exact ⟨"Low AI ", ": " ++ toString sig.confidence, rfl⟩
  · exact process_signal_no_bundle mcfg wm env signal sig henv (by rw [hcfg]; exact hconf)

/-- Witness for C1: the 0.4-confidence decision against the default 0.7
threshold. -/
theorem ai_skip_emits_skipped_without_submission_witness :
    execute_ai_signal hftConfigW (.ok lowConfSignalW) (.error "unused") 3 =
      (.ok (.skipped ("Low AI confidence: " ++ toString lowConfSignalW.confidence) 3), false) ∧
    (∃ s1 s2, ("Low AI confidence: " ++ toString lowConfSignalW.confidence) =
      s1 ++ "confidence" ++ s2) ∧
    (process_signal mwConfigLiveAiW emptyWmW envSkipW approvedW).bundle_attempted = false :=
  ai_skip_emits_skipped_without_submission hftConfigW lowConfSignalW (.error "unused") 3
    mwConfigLiveAiW emptyWmW envSkipW approvedW
    (by norm_num [hftConfigW, lowConfSignalW]) rfl rfl rfl rfl

/-- Counterexample to C3 as stated: a response whose text block is the
empty JSON object carries none of the recognized decision fields, yet
decoding succeeds and yields a decision whose every field holds a
silent default. -/
theorem parse_ai_response_defaults_cex :
    parse_ai_response 0 respEmptyObjW = .ok defaultedSignalW ∧
    defaultedSignalW.confidence = 0 ∧
    defaultedSignalW.action.action_type = "hold" := by
  exact ⟨rfl, rfl, rfl⟩

/-- Claim C3 as amended: decoding succeeds exactly when some content
block is typed text and its text parses as JSON; only the missing text
block and the unparseable text fail the call, while individual missing
or mistyped fields are replaced by defaults (as the counterexample
exhibits), never failing it. -/
theorem parse_ai_response_ok_iff (fresh_uuid : Nat) (response : TensorZeroResponse) :
    (∃ sig, parse_ai_response fresh_uuid response = .ok sig) ↔
    (∃ c, response.content.find? (fun c => c.content_type = "text") = some c ∧
      (Json.parse c.text).isSome = true) := by
  unfold parse_ai_response
  cases hfind : response.content.find? (fun c => c.content_type = "text") with
  | none => simp
  | some c =>
    cases hparse : Json.parse c.text with
    | none => simp [hparse]
    | some d => simp [hparse]

/-- Counterexample to C9 as stated: the string holding a two-element
JSON array is neither accepted key shape, yet validation fails with the
length error, not with the unsupported-key-format error. -/
theorem parse_private_key_short_array_cex :
    parse_private_key keypairOfBytes "[1,2]" = .error (.wrongLength 2) ∧
    KeyParseError.wrongLength 2 ≠ KeyParseError.unsupportedFormat ∧
    parseU8Vec "[1,2]" = some [1, 2] ∧
    bs58Decode "[1,2]" = none := by
  exact ⟨rfl, by decide, rfl, rfl⟩

/-- Claim C9 as amended: the unsupported-key-format error occurs exactly
when the material is not bracket-delimited and its base58 decoding does
not yield exactly 64 bytes; bracket-delimited material that fails JSON
byte-array parsing or has a length other than 64 fails with the
distinct JSON-parse and length errors; material of either accepted
shape produces a keypair whenever the byte-level constructor accepts
the bytes. -/
theorem parse_private_key_unsupported_iff (fb : List Nat → Option Keypair) (s : String) :
    (parse_private_key fb s = .error .unsupportedFormat ↔
      (¬ (strStartsWith s "[" = true ∧ strEndsWith s "]" = true) ∧
       ∀ bytes, bs58Decode s = some bytes → bytes.length ≠ 64)) ∧
    (∀ bytes k, strStartsWith s "[" = true → strEndsWith s "]" = true →
      parseU8Vec s = some bytes → bytes.length = 64 → fb bytes = some k →
      parse_private_key fb s = .ok k) ∧
    (∀ bytes k, ¬ (strStartsWith s "[" = true ∧ strEndsWith s "]" = true) →
      bs58Decode s = some bytes → bytes.length = 64 → fb bytes = some k →
      parse_private_key fb s = .ok k) := by
  unfold parse_private_key
  by_cases hbr : (strStartsWith s "[" = true ∧ strEndsWith s "]" = true)
  · rw [if_pos hbr]
    refine ⟨⟨fun h => ?_, fun hr => absurd hbr hr.1⟩,
      fun bytes k _ _ hv hlen hfb => by simp [hv, hlen, hfb],
      fun bytes k hnbr _ _ _ => absurd hbr hnbr⟩
    exfalso
    cases hv : parseU8Vec s with
    | none => simp [hv] at h
    | some bytes =>
      by_cases hlen : bytes.length = 64
      · cases hfb : fb bytes with
        | some k => simp [hv, hlen, hfb] at h
        | none => simp [hv, hlen, hfb] at h
      · simp [hv, hlen] at h
  · rw [if_neg hbr]
    cases hb : bs58Decode s with
    | none =>
      refine ⟨?_, fun bytes k h1 h2 _ _ _ => absurd ⟨h1, h2⟩ hbr,
        fun bytes k _ hsome _ _ => by simp at hsome⟩
      exact ⟨fun _ => ⟨hbr, fun bytes hc => by simp at hc⟩, fun _ => rfl⟩
    | some bytes0 =>
      by_cases hlen : bytes0.length = 64
      · refine ⟨?_, fun bytes k h1 h2 _ _ _ => absurd ⟨h1, h2⟩ hbr,
          fun bytes k _ hsome hlen2 hfb2 => ?_⟩
        · constructor
          · intro h
            exfalso
            cases hfb : fb bytes0 with
            | some k => simp [hlen, hfb] at h
            | none => simp [hlen, hfb] at h
          · intro hr
            exact absurd hlen (hr.2 bytes0 rfl)
        · have hbb : bytes0 = bytes := Option.some.inj hsome
          subst hbb
          simp [hlen, hfb2]
      · refine ⟨?_, fun bytes k h1 h2 _ _ _ => absurd ⟨h1, h2⟩ hbr,
          fun bytes k _ hsome hlen2 _ => ?_⟩
        · constructor
          · intro _
            refine ⟨hbr, fun bytes hc => ?_⟩
            have hbb : bytes0 = bytes := Option.some.inj hc
            rw [← hbb]
            exact hlen
          · intro _
            simp [hlen]
        · have hbb : bytes0 = bytes := Option.some.inj hsome
          rw [← hbb] at hlen2
          exact absurd hlen2 hlen

/-- Characterization of the selection loop: a successful run either
returns the incoming best untouched, with every eligible candidate
scoring at most its score, or returns the first candidate that attains
the strictly largest score: eligible, scoring above the incoming best
score, strictly above every eligible candidate before it and at least
every eligible candidate after it, built by make_selection from an
Active registry entry. -/
lemma select_loop_char (wm : WalletManagerState) (c : WalletSelectionCriteria)
    (cands : List String) :
    ∀ (best : Option (ℚ × WalletSelection)) (s : ℚ) (sel : WalletSelection),
    select_loop wm c cands best = .ok (some (s, sel)) →
    (best = some (s, sel) ∧
      ∀ w ∈ cands, eligible_candidate wm c w = true → candidate_score wm c w ≤ s) ∨
    (∃ pre post cfg, cands = pre ++ sel.wallet_id :: post ∧
      eligible_candidate wm c sel.wallet_id = true ∧
      s = candidate_score wm c sel.wallet_id ∧
      best_score_of best < s ∧
      (∀ w ∈ pre, eligible_candidate wm c w = true → candidate_score wm c w < s) ∧
      (∀ w ∈ post, eligible_candidate wm c w = true → candidate_score wm c w ≤ s) ∧
      assocFind sel.wallet_id wm.wallets = some cfg ∧ cfg.status = WalletStatus.Active ∧
      sel = make_selection wm sel.wallet_id cfg s) := by
  induction cands with
  | nil =>
    intro best s sel h
    left
    refine ⟨?_, by simp⟩
    injection h
  | cons wid rest ih =>
    intro best s sel h
    have lift_skip : eligible_candidate wm c wid = false →
        select_loop wm c rest best = .ok (some (s, sel)) →
        (best = some (s, sel) ∧
          ∀ w ∈ wid :: rest, eligible_candidate wm c w = true →
            candidate_score wm c w ≤ s) ∨
        (∃ pre post cfg, wid :: rest = pre ++ sel.wallet_id :: post ∧
          eligible_candidate wm c sel.wallet_id = true ∧
          s = candidate_score wm c sel.wallet_id ∧
          best_score_of best < s ∧
          (∀ w ∈ pre, eligible_candidate wm c w = true → candidate_score wm c w < s) ∧
          (∀ w ∈ post, eligible_candidate wm c w = true → candidate_score wm c w ≤ s) ∧
          assocFind sel.wallet_id wm.wallets = some cfg ∧
          cfg.status = WalletStatus.Active ∧
          sel = make_selection wm sel.wallet_id cfg s) := by
      intro hne h2
      rcases ih best s sel h2 with ⟨hb, hall⟩ |
        ⟨pre, post, cfg2, hdec, helig2, hs2, hbs2, hpre2, hpost2, hfind2, hact2, hsel2⟩
      · left
        refine ⟨hb, ?_⟩
        intro w hw hwelig
        rcases List.mem_cons.mp hw with hww | hww
        · rw [hww, hne] at hwelig
          exact Bool.noConfusion hwelig
        · exact hall w hww hwelig
      · right
        refine ⟨wid :: pre, post, cfg2, by rw [hdec]; rfl, helig2, hs2, hbs2, ?_,
          hpost2, hfind2, hact2, hsel2⟩
        intro w hw hwelig
        rcases List.mem_cons.mp hw with hww | hww
        · rw [hww, hne] at hwelig
          exact Bool.noConfusion hwelig
        · exact hpre2 w hww hwelig
    simp only [select_loop] at h
    by_cases hex : wid ∈ c.exclude_wallets
    · rw [if_pos hex] at h
      exact lift_skip (by simp [eligible_candidate, hex]) h
    · rw [if_neg hex] at h
      cases hfind : assocFind wid wm.wallets with
      | none =>
        simp only [hfind] at h
        exact Except.noConfusion h
      | some cfg =>
        simp only [hfind] at h
        by_cases hact : cfg.status ≠ WalletStatus.Active
        · rw [if_pos hact] at h
          exact lift_skip (by simp [eligible_candidate, hfind, hact]) h
        · rw [if_neg hact] at h
          have hstat : cfg.status = WalletStatus.Active := not_ne_iff.mp hact
          by_cases htype : (match c.preferred_wallet_type with
              | some t => decide (cfg.wallet_type ≠ t)
              | none => false) = true
          · rw [if_pos htype] at h
            refine lift_skip ?_ h
            cases hp : c.preferred_wallet_type with
            | none => rw [hp] at htype; exact absurd htype (by simp)
            | some t =>
              rw [hp] at htype
              have hwt : cfg.wallet_type ≠ t := of_decide_eq_true htype
              simp [eligible_candidate, hfind, hp, hwt]
          · rw [if_neg htype] at h
            have helig : eligible_candidate wm c wid = true := by
              cases hp : c.preferred_wallet_type with
              | none => simp [eligible_candidate, hex, hfind, hstat, hp]
              | some t =>
                rw [hp] at htype
                simp only [decide_eq_true_eq, not_not] at htype
                simp [eligible_candidate, hex, hfind, hstat, hp, htype]
            have hscore : candidate_score wm c wid
                = calculate_wallet_score cfg (assocFind wid wm.wallet_metrics) c := by
              simp [candidate_score, hfind]
            by_cases hgt : calculate_wallet_score cfg (assocFind wid wm.wallet_metrics) c
                > best_score_of best
            · rw [if_pos hgt] at h
              rcases ih _ s sel h with ⟨hb, hall⟩ |
                ⟨pre, post, cfg2, hdec, helig2, hs2, hbs2, hpre2, hpost2, hfind2, hact2, hsel2⟩
              · have hps := Option.some.inj hb
                have hps1 : calculate_wallet_score cfg (assocFind wid wm.wallet_metrics) c = s :=
                  congrArg Prod.fst hps
                have hps2 : make_selection wm wid cfg
                    (calculate_wallet_score cfg (assocFind wid wm.wallet_metrics) c) = sel :=
                  congrArg Prod.snd hps
                have hwid : sel.wallet_id = wid := by rw [← hps2]; rfl
                right
                refine ⟨[], rest, cfg, by rw [hwid]; rfl, ?_, ?_, ?_, by simp, ?_, ?_, hstat, ?_⟩
                · rw [hwid]; exact helig
                · rw [hwid, hscore, hps1]
                · rw [← hps1]; exact hgt
                · intro w hw hwelig
                  exact hall w hw hwelig
                · rw [hwid]; exact hfind
                · rw [hwid, ← hps2, hps1]
              · right
                have hlt : calculate_wallet_score cfg (assocFind wid wm.wallet_metrics) c < s := by
                  simpa [best_score_of] using hbs2
                refine ⟨wid :: pre, post, cfg2, by rw [hdec]; rfl, helig2, hs2,
                  lt_trans hgt hlt, ?_, hpost2, hfind2, hact2, hsel2⟩
                intro w hw hwelig
                rcases List.mem_cons.mp hw with hww | hww
                · rw [hww, hscore]
                  exact hlt
                · exact hpre2 w hww hwelig
            · rw [if_neg hgt] at h
              have hle : calculate_wallet_score cfg (assocFind wid wm.wallet_metrics) c
                  ≤ best_score_of best := not_lt.mp hgt
              rcases ih best s sel h with ⟨hb, hall⟩ |
                ⟨pre, post, cfg2, hdec, helig2, hs2, hbs2, hpre2, hpost2, hfind2, hact2, hsel2⟩
              · left
                refine ⟨hb, ?_⟩
                intro w hw hwelig
                rcases List.mem_cons.mp hw with hww | hww
                · have hbsc : best_score_of best = s := by rw [hb]; rfl
                  rw [hww, hscore]
                  rw [hbsc] at hle
                  exact hle
                · exact hall w hww hwelig
              · right
                refine ⟨wid :: pre, post, cfg2, by rw [hdec]; rfl, helig2, hs2, hbs2, ?_,
                  hpost2, hfind2, hact2, hsel2⟩
                intro w hw hwelig
                rcases List.mem_cons.mp hw with hww | hww
                · rw [hww, hscore]
                  exact lt_of_le_of_lt hle hbs2
                · exact hpre2 w hww hwelig

/-- Claim C6: a successful wallet selection always returns a wallet
whose registry entry exists and is Active; a non-Active wallet is never
selected. -/
theorem select_wallet_only_active (wm : WalletManagerState) (c : WalletSelectionCriteria)
    (sel : WalletSelection)
    (h : select_wallet wm c = .ok sel) :
    sel.wallet_config.status = WalletStatus.Active ∧
    assocFind sel.wallet_id wm.wallets = some sel.wallet_config := by
  unfold select_wallet at h
  by_cases hemp : (candidates_of wm c).isEmpty
  · rw [if_pos hemp] at h
    exact Except.noConfusion h
  · rw [if_neg hemp] at h
    cases hloop : select_loop wm c (candidates_of wm c) none with
    | error e =>
      rw [hloop] at h
      exact Except.noConfusion h
    | ok o =>
      cases o with
      | none =>
        rw [hloop] at h
        exact Except.noConfusion h
      | some p =>
        obtain ⟨s, sel0⟩ := p
        rw [hloop] at h
        have hsel : sel0 = sel := by injection h
        subst hsel
        rcases select_loop_char wm c (candidates_of wm c) none s sel0 hloop with
          ⟨hb, -⟩ | ⟨-, -, cfg, -, -, -, -, -, -, hfind, hstat, hmk⟩
        · exact Option.noConfusion hb
        · constructor
          · rw [hmk]
            exact hstat
          · rw [hmk]
            exact hfind
/-- Concrete evaluation of selection in the one-wallet scenario. -/
lemma selectSel_eq : select_wallet wmSelW critSelW = .ok selSelW := by
  norm_num [select_wallet, candidates_of, select_loop, assocFind, best_score_of,
    calculate_wallet_score, base_type_score, allocation_score, make_selection,
    calculate_risk_capacity, wmSelW, critSelW, walletW1, metricsW1, selSelW,
    riskLimitsW, min_def, List.find?]

/-- Witness for C6: the one-wallet scenario selects the Active Primary
wallet. -/
theorem select_wallet_only_active_witness :
    selSelW.wallet_config.status = WalletStatus.Active ∧
    assocFind selSelW.wallet_id wmSelW.wallets = some selSelW.wallet_config :=
  select_wallet_only_active wmSelW critSelW selSelW selectSel_eq

/-- Claim C7 as amended: selection returns the first candidate, in the
strategy mapping's candidate order, attaining the strictly largest
positive score among eligible candidates; risk utilization and wallet
id play no tie-breaking role, and determinism holds because selection
is a pure function of the tables and the criteria. -/
theorem select_wallet_first_max (wm : WalletManagerState) (c : WalletSelectionCriteria)
    (sel : WalletSelection)
    (h : select_wallet wm c = .ok sel) :
    ∃ pre post, candidates_of wm c = pre ++ sel.wallet_id :: post ∧
      eligible_candidate wm c sel.wallet_id = true ∧
      0 < candidate_score wm c sel.wallet_id ∧
      (∀ w ∈ pre, eligible_candidate wm c w = true →
        candidate_score wm c w < candidate_score wm c sel.wallet_id) ∧
      (∀ w ∈ post, eligible_candidate wm c w = true →
        candidate_score wm c w ≤ candidate_score wm c sel.wallet_id) := by
  unfold select_wallet at h
  by_cases hemp : (candidates_of wm c).isEmpty
  · rw [if_pos hemp] at h
    exact Except.noConfusion h
  · rw [if_neg hemp] at h
    cases hloop : select_loop wm c (candidates_of wm c) none with
    | error e =>
      rw [hloop] at h
      exact Except.noConfusion h
    | ok o =>
      cases o with
      | none =>
        rw [hloop] at h
        exact Except.noConfusion h
      | some p =>
        obtain ⟨s, sel0⟩ := p
        rw [hloop] at h
        have hsel : sel0 = sel := by injection h
        subst hsel
        rcases select_loop_char wm c (candidates_of wm c) none s sel0 hloop with
          ⟨hb, -⟩ | ⟨pre, post, cfg, hdec, helig, hs, hbs, hpre, hpost, -, -, -⟩
        · exact Option.noConfusion hb
        · refine ⟨pre, post, hdec, helig, ?_, ?_, ?_⟩
          · rw [← hs]
            simpa [best_score_of] using hbs
          · intro w hw hwelig
            rw [← hs]
            exact hpre w hw hwelig
          · intro w hw hwelig
            rw [← hs]
            exact hpost w hw hwelig

/-- Concrete evaluation of selection in the tie scenario: wallet A is
kept although B has the same score and lower risk utilization. -/
lemma selectTie_eq : select_wallet wmTieW critTieW = .ok selTieAW := by
  simp only [select_wallet, candidates_of, select_loop, assocFind, best_score_of,
    calculate_wallet_score, base_type_score, allocation_score, make_selection,
    calculate_risk_capacity, wmTieW, critTieW, walletTieA, walletTieB,
    metricsTieA, metricsTieB, selTieAW, riskLimitsW, List.find?, List.isEmpty,
    String.reduceEq, decide_True, decide_False, Bool.false_and, Bool.true_and,
    if_true, if_false, ite_true, ite_false]
  norm_num [min_def]

/-- Counterexample to C7 as stated: wallets A and B attain the same
highest score and B has the lower risk utilization, yet selection
returns A, the earlier candidate: the tie is broken by list position,
not by risk utilization. -/
theorem select_wallet_tie_first_cex :
    (select_wallet wmTieW critTieW).toOption.map (fun sel => sel.wallet_id) = some "A" ∧
    candidate_score wmTieW critTieW "A" = candidate_score wmTieW critTieW "B" ∧
    metricsTieB.risk_utilization < metricsTieA.risk_utilization ∧
    eligible_candidate wmTieW critTieW "B" = true := by
  refine ⟨?_, ?_, ?_, ?_⟩
  · rw [selectTie_eq]
    rfl
  · simp only [candidate_score, calculate_wallet_score, base_type_score, allocation_score,
      assocFind, wmTieW, critTieW, walletTieA, walletTieB, metricsTieA, metricsTieB,
      riskLimitsW, List.find?, String.reduceEq, if_true, if_false, ite_true, ite_false]
    norm_num [min_def]
  · norm_num [metricsTieA, metricsTieB]
  · simp only [eligible_candidate, assocFind, wmTieW, critTieW, walletTieA, walletTieB,
      riskLimitsW, String.reduceEq, if_true, if_false, ite_true, ite_false]
    simp

/-- Witness for the amended C7 in the tie scenario. -/
theorem select_wallet_first_max_witness :
    ∃ pre post, candidates_of wmTieW critTieW = pre ++ selTieAW.wallet_id :: post ∧
      eligible_candidate wmTieW critTieW selTieAW.wallet_id = true ∧
      0 < candidate_score wmTieW critTieW selTieAW.wallet_id ∧
      (∀ w ∈ pre, eligible_candidate wmTieW critTieW w = true →
        candidate_score wmTieW critTieW w < candidate_score wmTieW critTieW selTieAW.wallet_id) ∧
      (∀ w ∈ post, eligible_candidate wmTieW critTieW w = true →
        candidate_score wmTieW critTieW w ≤ candidate_score wmTieW critTieW selTieAW.wallet_id) :=
  select_wallet_first_max wmTieW critTieW selTieAW selectTie_eq

/-- Every trade path stamps the routed signal's own id on its result. -/
lemma execute_ai_paper_signal_id (cfg : MWExecutorConfig) (routed : RoutedSignal)
    (env : ExecEnv) :
    (execute_ai_paper_trade_with_wallet cfg routed env).1.signal_id
      = routed.original_signal.original_signal.signal_id := by
  unfold execute_ai_paper_trade_with_wallet
  cases cfg.hft_mode_enabled
  · rfl
  · cases hres : execute_ai_signal cfg.hft_config env.ai_outcome env.bundle_outcome
        env.elapsed_ms with
    | mk res att =>
      cases res with
      | error e => rfl
      | ok hr => cases hr <;> rfl

/-- Same for the Live/AI path. -/
lemma execute_ai_live_signal_id (cfg : MWExecutorConfig) (routed : RoutedSignal)
    (env : ExecEnv) :
    (execute_ai_live_trade_with_wallet cfg routed env).1.signal_id
      = routed.original_signal.original_signal.signal_id := by
  unfold execute_ai_live_trade_with_wallet
  cases cfg.hft_mode_enabled
  · rfl
  · cases hres : execute_ai_signal cfg.hft_config env.ai_outcome env.bundle_outcome
        env.elapsed_ms with
    | mk res att =>
      cases res with
      | error e => rfl
      | ok hr => cases hr <;> rfl

/-- The mode dispatch stamps the routed signal's own id on its result. -/
lemma dispatch_signal_id (cfg : MWExecutorConfig) (routed : RoutedSignal) (env : ExecEnv) :
    (dispatch_trade cfg routed env).1.signal_id
      = routed.original_signal.original_signal.signal_id := by
  unfold dispatch_trade
  cases cfg.trading_mode <;> cases cfg.hft_mode_enabled
  · rfl
  · exact execute_ai_paper_signal_id cfg routed env
  · rfl
  · exact execute_ai_live_signal_id cfg routed env

/-- A successful execute_routed_signal carries the routed signal's id. -/
lemma exec_result_signal_id (cfg : MWExecutorConfig) (wm : WalletManagerState)
    (env : ExecEnv) (routed : RoutedSignal) (r : ExecutionResult) (att : Bool)
    (hr : execute_routed_signal cfg wm env routed = .ok (r, att)) :
    r.signal_id = routed.original_signal.original_signal.signal_id := by
  unfold execute_routed_signal at hr
  split at hr
  · exact Except.noConfusion hr
  · split at hr
    · exact Except.noConfusion hr
    · injection hr with hr
      have h1 := congrArg Prod.fst hr
      dsimp only at h1
      rw [← h1]
      exact dispatch_signal_id cfg routed env

/-- A routed signal produced by select_wallet_for_signal wraps the
incoming approved signal unchanged. -/
lemma select_wallet_for_signal_original (cfg : MWExecutorConfig) (wm : WalletManagerState)
    (env : ExecEnv) (signal : ApprovedSignal) (routed : RoutedSignal)
    (hsel : select_wallet_for_signal cfg wm env signal = .ok routed) :
    routed.original_signal = signal := by
  unfold select_wallet_for_signal at hsel
  split at hsel
  · exact Except.noConfusion hsel
  · simp only [] at hsel
    split at hsel
    · injection hsel with hsel
      rw [← hsel]
    · exact Except.noConfusion hsel

/-- Claim C2 as amended: every ExecutionResult the executor sends to
persistence carries the processed signal's id, and exactly one result
is sent exactly when processing succeeds; on any failure, including the
no-wallet no-fallback case, NOTHING is sent downstream: the claimed
Failed result with a NoSuitableWallet error is never produced. -/
theorem process_signal_exactly_one_result (cfg : MWExecutorConfig)
    (wm : WalletManagerState) (env : ExecEnv) (signal : ApprovedSignal) :
    (∀ r ∈ (process_signal cfg wm env signal).sent,
      r.signal_id = signal.original_signal.signal_id) ∧
    (exceptIsOk (process_signal cfg wm env signal).ret = true ↔
      (process_signal cfg wm env signal).sent.length = 1) ∧
    (exceptIsOk (process_signal cfg wm env signal).ret = false →
      (process_signal cfg wm env signal).sent = []) := by
  have hfin : ∀ routed, routed.original_signal = signal →
      (∀ r ∈ (process_signal_finish cfg wm env routed).sent,
        r.signal_id = signal.original_signal.signal_id) ∧
      (exceptIsOk (process_signal_finish cfg wm env routed).ret = true ↔
        (process_signal_finish cfg wm env routed).sent.length = 1) ∧
      (exceptIsOk (process_signal_finish cfg wm env routed).ret = false →
        (process_signal_finish cfg wm env routed).sent = []) := by
    intro routed hro
    unfold process_signal_finish
    cases hr : execute_routed_signal cfg wm env routed with
    | error e => exact ⟨by simp, by simp [exceptIsOk], by simp⟩
    | ok pair =>
      obtain ⟨r, att⟩ := pair
      refine ⟨?_, by simp [exceptIsOk], by simp [exceptIsOk]⟩
      intro x hx
      have hxr : x = r := by simpa using hx
      rw [hxr, exec_result_signal_id cfg wm env routed r att hr, hro]
  unfold process_signal
  cases hsel : select_wallet_for_signal cfg wm env signal with
  | ok routed =>
    exact hfin routed (select_wallet_for_signal_original cfg wm env signal routed hsel)
  | error e =>
    cases cfg.fallback_wallet_id with
    | some fid => exact hfin _ rfl
    | none => exact ⟨by simp, by simp [exceptIsOk], by simp⟩

/-- Counterexample to C2 as stated: in the router-starvation scenario
(Arbitrage intent, only an Active Conservative wallet with Arbitrage
disabled, no fallback) the executor sends NO ExecutionResult at all; it
returns the no-suitable-wallet error to its caller instead of emitting
a Failed result. -/
theorem unroutable_signal_emits_nothing_cex :
    process_signal mwConfigPaperNoFbW wmConsW envPlainW approvedArbW =
      { sent := [], ret := .error "No suitable wallet found and no fallback configured",
        bundle_attempted := false } ∧
    approvedArbW.original_signal.strategy_type = StrategyType.Arbitrage ∧
    walletConsW.status = WalletStatus.Active ∧
    (walletConsW.strategy_allocation.find?
      (fun a => a.strategy_type = StrategyType.Arbitrage ∧ a.enabled = true)) = none ∧
    mwConfigPaperNoFbW.fallback_wallet_id = none := by
  exact ⟨rfl, rfl, rfl, rfl, rfl⟩

/-- Claim C8 as amended: when selection fails or times out, a configured
fallback wallet id is used unconditionally: no Active check is made, the
wallet only has to exist and have parseable signing material; without a
configured fallback the executor returns the no-suitable-wallet error
and emits nothing. -/
theorem fallback_used_regardless_of_status (cfg : MWExecutorConfig)
    (wm : WalletManagerState) (env : ExecEnv) (signal : ApprovedSignal) :
    (cfg.fallback_wallet_id = none →
      exceptIsOk (select_wallet_for_signal cfg wm env signal) = false →
      process_signal cfg wm env signal =
        { sent := [], ret := .error "No suitable wallet found and no fallback configured",
          bundle_attempted := false }) ∧
    (∀ fid wcfg k,
      cfg.fallback_wallet_id = some fid →
      exceptIsOk (select_wallet_for_signal cfg wm env signal) = false →
      assocFind fid wm.wallets = some wcfg →
      parse_private_key env.from_bytes wcfg.private_key = .ok k →
      ∃ r rest, (process_signal cfg wm env signal).sent = [r] ∧
        r.transaction_id = fid ++ "_" ++ rest) := by
  constructor
  · intro hfb hsel
    unfold process_signal
    cases hselc : select_wallet_for_signal cfg wm env signal with
    | ok routed =>
      rw [hselc] at hsel
      simp [exceptIsOk] at hsel
    | error e =>
      rw [hfb]
  · intro fid wcfg k hfb hsel hfind hkey
    unfold process_signal
    cases hselc : select_wallet_for_signal cfg wm env signal with
    | ok routed =>
      rw [hselc] at hsel
      simp [exceptIsOk] at hsel
    | error e =>
      rw [hfb]
      unfold process_signal_finish execute_routed_signal
      dsimp only
      simp only [hfind, hkey]
      exact ⟨_, _, rfl, rfl⟩

/-- Counterexample to C8 as stated: selection times out, the configured
fallback wallet FB is Suspended, yet the trade is executed with FB: a
result routed through FB is sent downstream although FB is not Active. -/
theorem fallback_used_despite_suspended_cex :
    (process_signal mwConfigFbW wmFbW envTimeoutW approvedArbW).sent.map
      (fun r => r.transaction_id) = ["FB_paper_u3"] ∧
    (process_signal mwConfigFbW wmFbW envTimeoutW approvedArbW).ret = .ok () ∧
    walletFbW.status = WalletStatus.Suspended ∧
    mwConfigFbW.fallback_wallet_id = some "FB" ∧
    assocFind "FB" wmFbW.wallets = some walletFbW := by
  exact ⟨rfl, rfl, rfl, rfl, rfl⟩

end OvermindSpec
